import Mathlib

/-
Verification of the attendance bot in src/bot.py (class ClassTrackerBot).

The embedding models the data-bearing behaviour of the five command
handlers.  The chat transport (python-telegram-bot), the HTTP bridge
(Flask) and the connection pool (psycopg2) are external collaborators;
a handler invocation is modelled as a pure function from the current
table contents plus the transport-supplied inputs to the resulting
table contents and the reply text.  A possible storage exception is
modelled by an `Option String` argument: `some e` means the single SQL
statement of that handler raises an exception whose `str()` is `e`.
-/

/-- Calendar date as held in the `class_date` DATE column and in Python
`datetime.date` values (year, month, day). -/
structure Date where
  year : Nat
  month : Nat
  day : Nat
deriving DecidableEq, Repr

/-- Gregorian leap-year rule, as used by Python `datetime`. -/
def isLeapYear (y : Nat) : Bool :=
  (y % 4 == 0 && y % 100 != 0) || y % 400 == 0

/-- Number of days in a month, as used by Python `datetime` to validate
a day-of-month. -/
def daysInMonth (y m : Nat) : Nat :=
  if m = 2 then (if isLeapYear y then 29 else 28)
  else if m = 4 ∨ m = 6 ∨ m = 9 ∨ m = 11 then 30
  else 31

/-- Split a character list on the literal `-` separator; models how the
`%Y-%m-%d` format string consumes its two literal dashes.  On the empty
input it returns one empty field, like `"".split`. -/
def splitOnDash : List Char → List (List Char)
  | [] => [[]]
  | c :: cs =>
    if c = '-' then [] :: splitOnDash cs
    else
      match splitOnDash cs with
      | [] => [[c]]
      | h :: t => (c :: h) :: t

/-- Value of a nonempty all-digit character list, `none` otherwise.
Models the `\d` groups of CPython `_strptime` (ASCII digits; the claims
exercise no non-ASCII digit input). -/
def digitsVal? (l : List Char) : Option Nat :=
  if l.isEmpty then none
  else if l.all Char.isDigit then
    some (l.foldl (fun n c => 10 * n + (c.toNat - '0'.toNat)) 0)
  else none

/-- Model of `datetime.strptime(s, "%Y-%m-%d").date()`: `some d` on a
strict full-string parse, `none` when the Python call raises
`ValueError`.  Field shapes follow the CPython `_strptime` regex: `%Y`
is exactly four digits (and `datetime` rejects year 0), `%m` is one or
two digits in 1..12, `%d` is one or two digits, and the day must exist
in the given month. -/
def parseYYYYMMDD (s : String) : Option Date :=
  match splitOnDash s.toList with
  | [ys, ms, ds] =>
    match digitsVal? ys, digitsVal? ms, digitsVal? ds with
    | some y, some m, some d =>
      if ys.length = 4 ∧ 1 ≤ y ∧ ms.length ≤ 2 ∧ 1 ≤ m ∧ m ≤ 12 ∧
          ds.length ≤ 2 ∧ 1 ≤ d ∧ d ≤ daysInMonth y m
      then some ⟨y, m, d⟩ else none
    | _, _, _ => none
  | _ => none

/-- Left-pad a number to two digits, as `%m`/`%d` rendering does. -/
def pad2 (n : Nat) : String :=
  if n < 10 then "0" ++ toString n else toString n

/-- Left-pad a number to four digits, as the year rendering does. -/
def pad4 (n : Nat) : String :=
  if n < 10 then "000" ++ toString n
  else if n < 100 then "00" ++ toString n
  else if n < 1000 then "0" ++ toString n
  else toString n

/-- Render a date as `YYYY-MM-DD`: models both `str(class_date)`
(`date.isoformat`, always zero-padded) used in the insert/remove
replies, and `d.strftime("%Y-%m-%d")` used in the check report (equal
to isoformat for the four-digit years every claim uses). -/
def formatDate (d : Date) : String :=
  pad4 d.year ++ "-" ++ pad2 d.month ++ "-" ++ pad2 d.day

/-- One row of the `class_attendance` table.  The SERIAL surrogate `id`
is not consulted by any handler and is left implicit in the row order
of the table model. -/
structure AttendanceRecord where
  user_id : Int
  username : String
  class_date : Date
deriving DecidableEq, Repr

/-- The `class_attendance` table contents, in insertion order. -/
abbrev Store := List AttendanceRecord

/-- Model of `" ".join(context.args)`. -/
def joinArgs : List String → String
  | [] => ""
  | [a] => a
  | a :: rest => a ++ " " ++ joinArgs rest

/-- Outcome of one handler invocation: either the handler replied to
the chat (with the resulting table contents and reply text), or an
exception escaped the handler body to the application-level error
callback (which only logs). -/
inductive HandlerResult where
  | reply (st : Store) (msg : String)
  | raised (st : Store) (err : String)
deriving DecidableEq, Repr

/-- Fixed usage hint replied by `record_specific_date` on a parse
error. -/
def usageRecord : String :=
  "Please provide a date in YYYY-MM-DD format\nExample: /record 2024-11-27"

/-- Fixed usage hint replied by `remove_date` on a parse error. -/
def usageRemove : String :=
  "Please provide a date in YYYY-MM-DD format\nExample: /remove 2024-11-27"

/-- Handler `record_today`: inserts a row for the host-local current
date (passed in as `today`).  Its `except Exception` catches any
storage error and replies with the error text. -/
def record_today_h (st : Store) (uid : Int) (uname : String) (today : Date)
    (dbErr : Option String) : HandlerResult :=
  match dbErr with
  | some e => .reply st ("Error recording today\x27s class: " ++ e)
  | none =>
      .reply (st ++ [⟨uid, uname, today⟩])
        ("Recorded class for today (" ++ formatDate today ++ ")")

/-- Handler `record_specific_date`: joins the arguments, parses them as
`%Y-%m-%d`, and inserts one row.  Its `except (ValueError, IndexError)`
catches only the parse failure; a storage exception is not caught and
escapes the handler. -/
def record_specific_date_h (st : Store) (uid : Int) (uname : String)
    (args : List String) (dbErr : Option String) : HandlerResult :=
  match parseYYYYMMDD (joinArgs args) with
  | none => .reply st usageRecord
  | some d =>
    match dbErr with
    | some e => .raised st e
    | none =>
        .reply (st ++ [⟨uid, uname, d⟩]) ("Recorded class for " ++ formatDate d)

/-- The WHERE clause of the DELETE in `remove_date`: matches rows with
the caller identity and the exact parsed date. -/
def removeMatch (uid : Int) (d : Date) (r : AttendanceRecord) : Bool :=
  r.user_id == uid && r.class_date == d

/-- Handler `remove_date`: joins and parses the argument, deletes every
matching row, and replies according to `cur.rowcount` (the number of
rows deleted).  As in `record_specific_date`, only `ValueError` and
`IndexError` are caught, so a storage exception escapes the handler. -/
def remove_date_h (st : Store) (uid : Int) (args : List String)
    (dbErr : Option String) : HandlerResult :=
  match parseYYYYMMDD (joinArgs args) with
  | none => .reply st usageRemove
  | some d =>
    match dbErr with
    | some e => .raised st e
    | none =>
        let st2 := st.filter (fun r => !(removeMatch uid d r))
        let deleted := st.length - st2.length
        if deleted > 0 then
          .reply st2 ("Removed class record for " ++ formatDate d)
        else
          .reply st2 ("No class record found for " ++ formatDate d)

/-- Ordering on dates used by `array_agg(class_date ORDER BY class_date)`:
the SQL DATE order, via the year-month-day lexicographic key. -/
def dateKey (d : Date) : Nat :=
  d.year * 10000 + d.month * 100 + d.day

/-- Nonstrict SQL DATE order. -/
def dateLE (a b : Date) : Prop := dateKey a ≤ dateKey b

instance : DecidableRel dateLE := fun _ _ => Nat.decLe _ _

instance : IsTotal Date dateLE := ⟨fun _ _ => Nat.le_total _ _⟩

instance : IsTrans Date dateLE := ⟨fun _ _ _ => Nat.le_trans⟩

/-- One output row of the CTE `stats` in `check_classes`:
`SELECT COUNT(*) as total_classes, username, array_agg(class_date ORDER
BY class_date) as dates, COUNT(*) OVER (PARTITION BY username) as
user_count FROM class_attendance GROUP BY username`. -/
structure StatsRow where
  total_classes : Nat
  username : String
  dates : List Date
  user_count : Nat
deriving DecidableEq, Repr

/-- Username enumeration of `GROUP BY username`, with the accumulator
holding the usernames already emitted.  PostgreSQL fixes no emission
order for a grouped query without a deterministic ORDER BY; the model
uses order of first appearance in the table. -/
def dedupFirstAux (seen : List String) : List String → List String
  | [] => []
  | u :: rest =>
    if u ∈ seen then dedupFirstAux seen rest
    else u :: dedupFirstAux (u :: seen) rest

/-- Usernames in order of first appearance, each once. -/
def dedupFirst (l : List String) : List String := dedupFirstAux [] l

/-- The grouped row for one username: the aggregate `COUNT(*)` (number
of table rows in the group) and the dates of the group in ascending
order.  `user_count` is filled in by the window-function pass below. -/
def mkGroup (st : Store) (u : String) : StatsRow :=
  { total_classes := (st.filter (fun r => r.username == u)).length
    username := u
    dates := List.insertionSort dateLE
      ((st.filter (fun r => r.username == u)).map (fun r => r.class_date))
    user_count := 0 }

/-- The grouped rows before window-function evaluation. -/
def statsBase (st : Store) : List StatsRow :=
  (dedupFirst (st.map (fun r => r.username))).map (mkGroup st)

/-- The rows of the CTE `stats`.  The window function `COUNT(*) OVER
(PARTITION BY username)` is evaluated after grouping, over the grouped
rows themselves: `user_count` is the number of grouped rows sharing the
username of that row (which is 1 for every row, since `username` is the
grouping key — proved below, not assumed). -/
def statsRows (st : Store) : List StatsRow :=
  (statsBase st).map (fun g =>
    { g with
      user_count :=
        ((statsBase st).filter (fun h => h.username == g.username)).length })

/-- Sort key of the outer `ORDER BY user_count DESC`. -/
def ucDesc (a b : StatsRow) : Prop := b.user_count ≤ a.user_count

instance : DecidableRel ucDesc := fun _ _ => Nat.decLe _ _

/-- Result list of `cur.fetchall()` in `check_classes`: the CTE rows
ordered by `user_count DESC` (modelled with a stable sort, so rows with
equal keys keep the enumeration order). -/
def checkQuery (st : Store) : List StatsRow :=
  List.insertionSort ucDesc (statsRows st)

/-- The values `check_classes` computes and renders when `results` is
nonempty: `total_classes = results[0][0]`, `credits_left = 100 -
total_classes`, and the per-user sections in `results` order. -/
structure CheckReport where
  total_classes : Nat
  credits_left : Int
  groups : List StatsRow
deriving DecidableEq, Repr

/-- Report extraction of `check_classes`: `none` models the early
return on an empty result set. -/
def checkReport (st : Store) : Option CheckReport :=
  match checkQuery st with
  | [] => none
  | r0 :: rest =>
      some { total_classes := r0.total_classes
             credits_left := 100 - (r0.total_classes : Int)
             groups := r0 :: rest }

/-- One loop iteration of the message build: the section of one user. -/
def renderGroup (g : StatsRow) : String :=
  let dateList := g.dates.map formatDate
  "\n" ++ g.username ++ "\x27s classes taken: " ++ toString dateList.length ++
    "\n" ++ String.intercalate "\n" dateList ++ "\n"

/-- The full report text (header, then sections, then `.strip()`). -/
def renderReport (rep : CheckReport) : String :=
  (rep.groups.foldl (fun m g => m ++ renderGroup g)
    ("Total classes taken: " ++ toString rep.total_classes ++
      "\nCredits left: " ++ toString rep.credits_left ++ "\n")).trim

/-- The reply text of `check_classes` on a successful query. -/
def check_message (st : Store) : String :=
  match checkReport st with
  | none => "No classes recorded"
  | some rep => renderReport rep

/-- Handler `check_classes`: its `except Exception` catches any storage
error and replies with the error text; otherwise it replies with the
report. -/
def check_classes_h (st : Store) (dbErr : Option String) : HandlerResult :=
  match dbErr with
  | some e => .reply st ("Error checking classes: " ++ e)
  | none => .reply st (check_message st)

/-- Membership in the username enumeration, relative to the already
emitted accumulator. -/
theorem mem_dedupFirstAux (a : String) :
    ∀ (l seen : List String), a ∈ dedupFirstAux seen l ↔ a ∈ l ∧ a ∉ seen
  | [], seen => by simp [dedupFirstAux]
  | u :: rest, seen => by
    by_cases h : u ∈ seen
    · rw [dedupFirstAux, if_pos h, mem_dedupFirstAux a rest seen]
      by_cases ha : a = u
      · subst ha; simp [h]
      · simp [ha, List.mem_cons]
    · rw [dedupFirstAux, if_neg h]
      by_cases ha : a = u
      · subst ha; simp [h]
      · simp [ha, List.mem_cons, mem_dedupFirstAux a rest (u :: seen), not_or]

/-- The username enumeration emits each username at most once. -/
theorem nodup_dedupFirstAux : ∀ (l seen : List String), (dedupFirstAux seen l).Nodup
  | [], _ => by simp [dedupFirstAux]
  | u :: rest, seen => by
    by_cases h : u ∈ seen
    · rw [dedupFirstAux, if_pos h]; exact nodup_dedupFirstAux rest seen
    · rw [dedupFirstAux, if_neg h, List.nodup_cons]
      refine ⟨fun hu => ?_, nodup_dedupFirstAux rest (u :: seen)⟩
      exact ((mem_dedupFirstAux u rest (u :: seen)).1 hu).2 (List.mem_cons_self u seen)

theorem mem_dedupFirst (a : String) (l : List String) : a ∈ dedupFirst l ↔ a ∈ l := by
  rw [dedupFirst, mem_dedupFirstAux]; simp

theorem nodup_dedupFirst (l : List String) : (dedupFirst l).Nodup :=
  nodup_dedupFirstAux l []

/-- In a list whose key images are distinct, filtering for one present
key yields exactly one element. -/
theorem length_filter_key_one {α : Type} (f : α → String) :
    ∀ (l : List α), (l.map f).Nodup → ∀ a ∈ l,
      (l.filter (fun b => f b == f a)).length = 1
  | [], _, a, ha => absurd ha (List.not_mem_nil a)
  | x :: xs, h, a, ha => by
    rw [List.map_cons, List.nodup_cons] at h
    rcases List.mem_cons.1 ha with rfl | hxs
    · have hnil : xs.filter (fun b => f b == f a) = [] := by
        rw [List.filter_eq_nil_iff]
        intro b hb hfb
        have hba : f b = f a := by simpa using hfb
        exact h.1 (hba ▸ List.mem_map_of_mem f hb)
      simp [List.filter_cons, hnil]
    · have hne : (f x == f a) = false := by
        simp only [beq_eq_false_iff_ne, ne_eq]
        intro hfa
        exact h.1 (hfa ▸ List.mem_map_of_mem f hxs)
      simp only [List.filter_cons, hne, Bool.false_eq_true, if_false]
      exact length_filter_key_one f xs h.2 a hxs

/-- A stable insertion sort leaves a list unchanged when every ordered
pair of its elements is already related. -/
theorem insertionSort_eq_self {α : Type} (r : α → α → Prop) [DecidableRel r] :
    ∀ l : List α, (∀ a ∈ l, ∀ b ∈ l, r a b) → List.insertionSort r l = l
  | [], _ => rfl
  | x :: xs, h => by
    rw [List.insertionSort_cons r
        (fun b hb => h x (List.mem_cons_self x xs) b (List.mem_cons_of_mem x hb)),
      insertionSort_eq_self r xs
        (fun a ha b hb =>
          h a (List.mem_cons_of_mem x ha) b (List.mem_cons_of_mem x hb))]

/-- The grouped rows carry pairwise distinct usernames (they are the
enumeration of the grouping key). -/
theorem statsBase_map_username (st : Store) :
    (statsBase st).map StatsRow.username = dedupFirst (st.map (fun r => r.username)) := by
  rw [statsBase, List.map_map]
  have hc : StatsRow.username ∘ mkGroup st = fun u => u := by
    funext u; rfl
  rw [hc, List.map_id']

/-- The window `COUNT(*) OVER (PARTITION BY username)` evaluates to 1
on every row of the CTE: after `GROUP BY username` each partition of
the grouped rows holds exactly one row. -/
theorem user_count_eq_one (st : Store) (g : StatsRow) (hg : g ∈ statsRows st) :
    g.user_count = 1 := by
  rw [statsRows] at hg
  obtain ⟨g0, hg0, rfl⟩ := List.mem_map.1 hg
  have hnd : ((statsBase st).map StatsRow.username).Nodup := by
    rw [statsBase_map_username]; exact nodup_dedupFirst _
  simpa using length_filter_key_one StatsRow.username (statsBase st) hnd g0 hg0

/-- Because every `user_count` is 1, the outer `ORDER BY user_count
DESC` relates every pair of rows, so the (stable) ordering returns the
rows in enumeration order unchanged. -/
theorem checkQuery_eq_statsRows (st : Store) : checkQuery st = statsRows st :=
  insertionSort_eq_self ucDesc (statsRows st) (fun a ha b hb => by
    show b.user_count ≤ a.user_count
    rw [user_count_eq_one st a ha, user_count_eq_one st b hb])

/-- Every username present in the table has a grouped row, whose fields
are the aggregates of the group. -/
theorem statsRows_exists_group (st : Store) (u : String)
    (hu : u ∈ st.map (fun r => r.username)) :
    ∃ g ∈ statsRows st, g.username = u ∧
      g.total_classes = (st.filter (fun r => r.username == u)).length ∧
      g.dates = List.insertionSort dateLE
        ((st.filter (fun r => r.username == u)).map (fun r => r.class_date)) := by
  have hmem : u ∈ dedupFirst (st.map (fun r => r.username)) := (mem_dedupFirst u _).2 hu
  have hbase : mkGroup st u ∈ statsBase st := List.mem_map_of_mem (mkGroup st) hmem
  exact ⟨_, List.mem_map_of_mem _ hbase, rfl, rfl, rfl⟩

/-- On a nonempty table the first emitted row is the group of the username of the
first record. -/
theorem statsRows_head (a : AttendanceRecord) (rest : Store) :
    (statsRows (a :: rest)).head? = some
      { total_classes := ((a :: rest).filter (fun r => r.username == a.username)).length
        username := a.username
        dates := List.insertionSort dateLE
          (((a :: rest).filter (fun r => r.username == a.username)).map
            (fun r => r.class_date))
        user_count := ((statsBase (a :: rest)).filter
          (fun h => h.username == a.username)).length } := by
  have h1 : dedupFirst ((a :: rest).map (fun r => r.username)) =
      a.username :: dedupFirstAux [a.username] (rest.map (fun r => r.username)) := by
    rw [List.map_cons, dedupFirst, dedupFirstAux, if_neg (List.not_mem_nil _)]
  rw [statsRows, statsBase, h1, List.map_cons, List.map_cons, List.head?_cons]
  rfl

/-- Head of the fetched result list on a nonempty table. -/
theorem checkQuery_head (a : AttendanceRecord) (rest : Store) :
    (checkQuery (a :: rest)).head? = some
      { total_classes := ((a :: rest).filter (fun r => r.username == a.username)).length
        username := a.username
        dates := List.insertionSort dateLE
          (((a :: rest).filter (fun r => r.username == a.username)).map
            (fun r => r.class_date))
        user_count := ((statsBase (a :: rest)).filter
          (fun h => h.username == a.username)).length } := by
  rw [checkQuery_eq_statsRows]
  exact statsRows_head a rest

/-- When the result list is nonempty, `checkReport` packages exactly
that list. -/
theorem checkReport_of_ne_nil (st : Store) (hne : checkQuery st ≠ []) :
    ∃ rep, checkReport st = some rep ∧ rep.groups = checkQuery st := by
  rw [checkReport]
  cases h : checkQuery st with
  | nil => exact absurd h hne
  | cons r0 rest => exact ⟨_, rfl, rfl⟩

/-- C1 counterexample: on the table holding one record for username
"a" and two for username "b", the displayed `total_classes` is 1, the
count of the group emitted first, while the largest group has count 2.
The claim that `total_classes` equals the count of the largest group
is false on the code. -/
theorem c1_total_not_largest_group :
    ((checkReport [⟨1, "a", ⟨2024, 1, 1⟩⟩, ⟨2, "b", ⟨2024, 1, 2⟩⟩,
        ⟨2, "b", ⟨2024, 1, 3⟩⟩]).map (fun rep => rep.total_classes)) = some 1 ∧
    ((checkReport [⟨1, "a", ⟨2024, 1, 1⟩⟩, ⟨2, "b", ⟨2024, 1, 2⟩⟩,
        ⟨2, "b", ⟨2024, 1, 3⟩⟩]).map
      (fun rep => rep.groups.map (fun g => g.total_classes))) = some [1, 2] := by
  decide

/-- C1 (amended): on a nonempty store the displayed `total_classes` is
the record count of the group emitted FIRST by the aggregate query —
the group of the username of the first record under the modelled
enumeration order — which need not be the largest group, because the window value
`user_count` the rows are ordered by is 1 for every row. -/
theorem c1_total_is_first_emitted_group (a : AttendanceRecord) (rest : Store) :
    ∃ rep, checkReport (a :: rest) = some rep ∧
      rep.total_classes =
        ((a :: rest).filter (fun r => r.username == a.username)).length := by
  have hh := checkQuery_head a rest
  cases hq : checkQuery (a :: rest) with
  | nil => rw [hq] at hh; exact absurd hh (by simp)
  | cons g tl =>
      rw [hq, List.head?_cons, Option.some_inj] at hh
      simp only [checkReport, hq]
      refine ⟨_, rfl, ?_⟩
      rw [hh]

/-- C2 counterexample: a storage error raised during the INSERT of
`record_specific_date` or the DELETE of `remove_date` is not caught by
those handlers (their `except` clause lists only `ValueError` and
`IndexError`), so the exception escapes the handler instead of being
replied to the user. -/
theorem c2_storage_error_escapes :
    record_specific_date_h [] 1 "alice" ["2024-11-27"] (some "connection refused") =
      HandlerResult.raised [] "connection refused" ∧
    remove_date_h [] 1 ["2024-11-27"] (some "connection refused") =
      HandlerResult.raised [] "connection refused" := by
  decide

/-- C2 (amended): `record_today` and `check` catch any storage error
and reply with a message containing the error text, but
`record_specific_date` and `remove_date` catch only parse errors, so a
storage error raised during their query escapes the handler to the
application-level error callback. -/
theorem c2_storage_error_policy (st : Store) (uid : Int) (uname : String)
    (today : Date) (args : List String) (d : Date) (e : String)
    (hp : parseYYYYMMDD (joinArgs args) = some d) :
    record_today_h st uid uname today (some e) =
      HandlerResult.reply st ("Error recording today\x27s class: " ++ e) ∧
    check_classes_h st (some e) =
      HandlerResult.reply st ("Error checking classes: " ++ e) ∧
    record_specific_date_h st uid uname args (some e) = HandlerResult.raised st e ∧
    remove_date_h st uid args (some e) = HandlerResult.raised st e := by
  refine ⟨rfl, rfl, ?_, ?_⟩ <;> simp [record_specific_date_h, remove_date_h, hp]

/-- C2 witness: the amended storage-error policy at a concrete input. -/
theorem c2_storage_error_policy_witness :
    parseYYYYMMDD (joinArgs ["2024-11-27"]) = some ⟨2024, 11, 27⟩ ∧
    (record_today_h [] 7 "alice" ⟨2025, 2, 3⟩ (some "boom") =
        HandlerResult.reply [] ("Error recording today\x27s class: " ++ "boom") ∧
      check_classes_h [] (some "boom") =
        HandlerResult.reply [] ("Error checking classes: " ++ "boom") ∧
      record_specific_date_h [] 7 "alice" ["2024-11-27"] (some "boom") =
        HandlerResult.raised [] "boom" ∧
      remove_date_h [] 7 ["2024-11-27"] (some "boom") =
        HandlerResult.raised [] "boom") :=
  ⟨by decide, c2_storage_error_policy [] 7 "alice" ⟨2025, 2, 3⟩ ["2024-11-27"]
    ⟨2024, 11, 27⟩ "boom" (by decide)⟩

/-- C3: on any argument list whose joined text fails the strict
`%Y-%m-%d` parse (wrong separator, wrong field count, non-numeric
component, or empty/missing argument), `record_specific_date` and
`remove_date` leave the store unmodified and reply with their fixed
usage-hint texts; the storage layer is never reached. -/
theorem c3_malformed_date_no_mutation (st : Store) (uid : Int) (uname : String)
    (args : List String) (dbErr : Option String)
    (h : parseYYYYMMDD (joinArgs args) = none) :
    record_specific_date_h st uid uname args dbErr = HandlerResult.reply st usageRecord ∧
    remove_date_h st uid args dbErr = HandlerResult.reply st usageRemove := by
  constructor <;> simp [record_specific_date_h, remove_date_h, h]

/-- C3 witness: the four malformed shapes named by the claim — wrong
separator, wrong field count, non-numeric component, missing argument —
each leave a nonempty store untouched and produce the usage hints. -/
theorem c3_malformed_date_no_mutation_witness :
    (parseYYYYMMDD (joinArgs ["2024/11/27"]) = none ∧
      record_specific_date_h [⟨7, "alice", ⟨2024, 1, 1⟩⟩] 7 "alice" ["2024/11/27"] none =
        HandlerResult.reply [⟨7, "alice", ⟨2024, 1, 1⟩⟩] usageRecord ∧
      remove_date_h [⟨7, "alice", ⟨2024, 1, 1⟩⟩] 7 ["2024/11/27"] none =
        HandlerResult.reply [⟨7, "alice", ⟨2024, 1, 1⟩⟩] usageRemove) ∧
    (parseYYYYMMDD (joinArgs ["2024-11"]) = none ∧
      record_specific_date_h [⟨7, "alice", ⟨2024, 1, 1⟩⟩] 7 "alice" ["2024-11"] none =
        HandlerResult.reply [⟨7, "alice", ⟨2024, 1, 1⟩⟩] usageRecord ∧
      remove_date_h [⟨7, "alice", ⟨2024, 1, 1⟩⟩] 7 ["2024-11"] none =
        HandlerResult.reply [⟨7, "alice", ⟨2024, 1, 1⟩⟩] usageRemove) ∧
    (parseYYYYMMDD (joinArgs ["2024-1x-27"]) = none ∧
      record_specific_date_h [⟨7, "alice", ⟨2024, 1, 1⟩⟩] 7 "alice" ["2024-1x-27"] none =
        HandlerResult.reply [⟨7, "alice", ⟨2024, 1, 1⟩⟩] usageRecord ∧
      remove_date_h [⟨7, "alice", ⟨2024, 1, 1⟩⟩] 7 ["2024-1x-27"] none =
        HandlerResult.reply [⟨7, "alice", ⟨2024, 1, 1⟩⟩] usageRemove) ∧
    (parseYYYYMMDD (joinArgs []) = none ∧
      record_specific_date_h [⟨7, "alice", ⟨2024, 1, 1⟩⟩] 7 "alice" [] none =
        HandlerResult.reply [⟨7, "alice", ⟨2024, 1, 1⟩⟩] usageRecord ∧
      remove_date_h [⟨7, "alice", ⟨2024, 1, 1⟩⟩] 7 [] none =
        HandlerResult.reply [⟨7, "alice", ⟨2024, 1, 1⟩⟩] usageRemove) :=
  ⟨⟨by decide, c3_malformed_date_no_mutation [⟨7, "alice", ⟨2024, 1, 1⟩⟩] 7 "alice"
      ["2024/11/27"] none (by decide)⟩,
    ⟨by decide, c3_malformed_date_no_mutation [⟨7, "alice", ⟨2024, 1, 1⟩⟩] 7 "alice"
      ["2024-11"] none (by decide)⟩,
    ⟨by decide, c3_malformed_date_no_mutation [⟨7, "alice", ⟨2024, 1, 1⟩⟩] 7 "alice"
      ["2024-1x-27"] none (by decide)⟩,
    ⟨by decide, c3_malformed_date_no_mutation [⟨7, "alice", ⟨2024, 1, 1⟩⟩] 7 "alice"
      [] none (by decide)⟩⟩

/-- C4: for every user identity and valid parsed date, `remove_date`
deletes in one call every stored row matching the (user_id, class_date)
pair — duplicates included: the resulting store is exactly the
non-matching rows — and replies with the confirmation naming the date
exactly when at least one row matched, with the not-found message
exactly when none did; running `remove_date` again for the same pair
then reports nothing to remove. -/
theorem c4_remove_deletes_all_matches (st : Store) (uid : Int) (args : List String)
    (d : Date) (h : parseYYYYMMDD (joinArgs args) = some d) :
    remove_date_h st uid args none =
      HandlerResult.reply (st.filter (fun r => !(removeMatch uid d r)))
        (if 0 < (st.filter (removeMatch uid d)).length then
          "Removed class record for " ++ formatDate d
        else "No class record found for " ++ formatDate d) ∧
    remove_date_h (st.filter (fun r => !(removeMatch uid d r))) uid args none =
      HandlerResult.reply (st.filter (fun r => !(removeMatch uid d r)))
        ("No class record found for " ++ formatDate d) := by
  have hdel : st.length - (st.filter (fun r => !(removeMatch uid d r))).length =
      (st.filter (removeMatch uid d)).length := by
    have hpart := @List.length_eq_length_filter_add _ st (removeMatch uid d)
    omega
  constructor
  · simp only [remove_date_h, h, hdel]
    by_cases hc : 0 < (st.filter (removeMatch uid d)).length <;> simp [hc]
  · have hself : (st.filter (fun r => !(removeMatch uid d r))).filter
        (fun r => !(removeMatch uid d r)) = st.filter (fun r => !(removeMatch uid d r)) := by
      rw [List.filter_eq_self]
      intro r hr
      exact (List.mem_filter.1 hr).2
    simp only [remove_date_h, h, hself, Nat.sub_self]
    simp

/-- C4 witness: a store holding two duplicate rows for the pair and one
row of another user; one call removes both duplicates and leaves the
row of the other user, and a second call reports nothing found. -/
theorem c4_remove_deletes_all_matches_witness :
    parseYYYYMMDD (joinArgs ["2024-11-27"]) = some ⟨2024, 11, 27⟩ ∧
    (remove_date_h
        [⟨1, "a", ⟨2024, 11, 27⟩⟩, ⟨1, "a", ⟨2024, 11, 27⟩⟩, ⟨2, "b", ⟨2024, 11, 27⟩⟩]
        1 ["2024-11-27"] none =
      HandlerResult.reply [⟨2, "b", ⟨2024, 11, 27⟩⟩]
        "Removed class record for 2024-11-27" ∧
     remove_date_h [⟨2, "b", ⟨2024, 11, 27⟩⟩] 1 ["2024-11-27"] none =
      HandlerResult.reply [⟨2, "b", ⟨2024, 11, 27⟩⟩]
        "No class record found for 2024-11-27") :=
  ⟨by decide, c4_remove_deletes_all_matches
    [⟨1, "a", ⟨2024, 11, 27⟩⟩, ⟨1, "a", ⟨2024, 11, 27⟩⟩, ⟨2, "b", ⟨2024, 11, 27⟩⟩]
    1 ["2024-11-27"] ⟨2024, 11, 27⟩ (by decide)⟩

/-- C5: on every store with at least one record, the displayed
`credits_left` equals exactly 100 minus the displayed `total_classes`. -/
theorem c5_credits_left_relation (st : Store) (h : st ≠ []) :
    ∃ rep, checkReport st = some rep ∧
      rep.credits_left = 100 - (rep.total_classes : Int) := by
  match st, h with
  | a :: rest, _ =>
    have hh := checkQuery_head a rest
    cases hq : checkQuery (a :: rest) with
    | nil => rw [hq] at hh; exact absurd hh (by simp)
    | cons g tl =>
        simp only [checkReport, hq]
        exact ⟨_, rfl, rfl⟩

/-- C5 witness: the relation at a concrete one-record store. -/
theorem c5_credits_left_relation_witness :
    ([⟨1, "a", ⟨2024, 1, 2⟩⟩] : Store) ≠ [] ∧
    ∃ rep, checkReport [⟨1, "a", ⟨2024, 1, 2⟩⟩] = some rep ∧
      rep.credits_left = 100 - (rep.total_classes : Int) :=
  ⟨by decide, c5_credits_left_relation [⟨1, "a", ⟨2024, 1, 2⟩⟩] (by decide)⟩

/-- C6 counterexample: with one record for "a" inserted before two
records for "b", the sections are emitted with counts [1, 2] — the
second section has strictly more records than the first, so the
sections do not appear in descending order of record count. -/
theorem c6_sections_not_by_descending_count :
    ((checkQuery [⟨1, "a", ⟨2024, 1, 1⟩⟩, ⟨2, "b", ⟨2024, 1, 2⟩⟩,
        ⟨2, "b", ⟨2024, 1, 3⟩⟩]).map (fun g => g.total_classes)) = [1, 2] ∧
    ¬ List.Sorted (fun a b : Nat => b ≤ a)
      ((checkQuery [⟨1, "a", ⟨2024, 1, 1⟩⟩, ⟨2, "b", ⟨2024, 1, 2⟩⟩,
        ⟨2, "b", ⟨2024, 1, 3⟩⟩]).map (fun g => g.total_classes)) := by
  constructor <;> decide

/-- C6 (amended): the section of each user lists exactly the recorded
dates of that user in ascending order; however the sections appear in
the enumeration order of the query, not in descending record count — the
`ORDER BY user_count DESC` key is the window count over the grouped
rows, which is 1 for every row, so the stable ordering is the
identity. -/
theorem c6_sections_enumeration_order_dates_ascending (st : Store) :
    checkQuery st = statsRows st ∧
    ∀ g, g ∈ checkQuery st →
      List.Sorted dateLE g.dates ∧
      g.dates.Perm ((st.filter (fun r => r.username == g.username)).map
        (fun r => r.class_date)) := by
  refine ⟨checkQuery_eq_statsRows st, fun g hg => ?_⟩
  rw [checkQuery_eq_statsRows, statsRows] at hg
  obtain ⟨g0, hg0, rfl⟩ := List.mem_map.1 hg
  rw [statsBase] at hg0
  obtain ⟨u, hu, rfl⟩ := List.mem_map.1 hg0
  exact ⟨List.sorted_insertionSort dateLE _, List.perm_insertionSort dateLE _⟩

/-- C6 witness: the per-section date properties at a concrete
one-record store and its one section. -/
theorem c6_sections_enumeration_order_dates_ascending_witness :
    List.Sorted dateLE
      (({ total_classes := 1, username := "a", dates := [⟨2024, 1, 1⟩],
          user_count := 1 } : StatsRow).dates) ∧
    (({ total_classes := 1, username := "a", dates := [⟨2024, 1, 1⟩],
        user_count := 1 } : StatsRow).dates).Perm
      ((([⟨1, "a", ⟨2024, 1, 1⟩⟩] : Store).filter (fun r => r.username ==
        ({ total_classes := 1, username := "a", dates := [⟨2024, 1, 1⟩],
           user_count := 1 } : StatsRow).username)).map (fun r => r.class_date)) :=
  (c6_sections_enumeration_order_dates_ascending [⟨1, "a", ⟨2024, 1, 1⟩⟩]).2
    { total_classes := 1, username := "a", dates := [⟨2024, 1, 1⟩], user_count := 1 }
    (by decide)

/-- C7: on an empty store, `check` replies with exactly the fixed
"No classes recorded" text — the header and per-user formatting are
skipped. -/
theorem c7_check_empty_store :
    check_classes_h [] none = HandlerResult.reply [] "No classes recorded" := rfl

/-- C8: for every argument text that parses as a valid `%Y-%m-%d`
date, `record_specific_date` inserts the row and confirms, and an
immediately following `check` produces a report in which the issuing
section of the issuing user contains that exact date. -/
theorem c8_record_then_check_shows_date (st : Store) (uid : Int) (uname : String)
    (args : List String) (d : Date) (h : parseYYYYMMDD (joinArgs args) = some d) :
    record_specific_date_h st uid uname args none =
      HandlerResult.reply (st ++ [⟨uid, uname, d⟩])
        ("Recorded class for " ++ formatDate d) ∧
    ∃ rep, checkReport (st ++ [⟨uid, uname, d⟩]) = some rep ∧
      ∃ g, g ∈ rep.groups ∧ g.username = uname ∧ d ∈ g.dates := by
  refine ⟨by simp [record_specific_date_h, h], ?_⟩
  have hu : uname ∈ (st ++ [(⟨uid, uname, d⟩ : AttendanceRecord)]).map
      (fun r => r.username) :=
    List.mem_map.2 ⟨⟨uid, uname, d⟩, by simp, rfl⟩
  obtain ⟨g, hg, hgu, hgt, hgd⟩ :=
    statsRows_exists_group (st ++ [⟨uid, uname, d⟩]) uname hu
  have hgq : g ∈ checkQuery (st ++ [⟨uid, uname, d⟩]) := by
    rw [checkQuery_eq_statsRows]; exact hg
  obtain ⟨rep, hrep, hgroups⟩ := checkReport_of_ne_nil _ (List.ne_nil_of_mem hgq)
  refine ⟨rep, hrep, g, by rw [hgroups]; exact hgq, hgu, ?_⟩
  rw [hgd, List.mem_insertionSort]
  exact List.mem_map.2 ⟨⟨uid, uname, d⟩, List.mem_filter.2 ⟨by simp, by simp⟩, rfl⟩

/-- C8 witness: recording 2024-11-27 into an empty store and checking
shows the date in the section of that user. -/
theorem c8_record_then_check_shows_date_witness :
    parseYYYYMMDD (joinArgs ["2024-11-27"]) = some ⟨2024, 11, 27⟩ ∧
    (record_specific_date_h [] 1 "alice" ["2024-11-27"] none =
        HandlerResult.reply [⟨1, "alice", ⟨2024, 11, 27⟩⟩]
          "Recorded class for 2024-11-27" ∧
      ∃ rep, checkReport [⟨1, "alice", ⟨2024, 11, 27⟩⟩] = some rep ∧
        ∃ g, g ∈ rep.groups ∧ g.username = "alice" ∧
          (⟨2024, 11, 27⟩ : Date) ∈ g.dates) :=
  ⟨by decide, c8_record_then_check_shows_date [] 1 "alice" ["2024-11-27"]
    ⟨2024, 11, 27⟩ (by decide)⟩

/-- C9 counterexample: on the same parse error, the two handlers reply
with different strings — the example lines name `/record` and `/remove`
respectively — so the usage-hint replies are not equal as strings. -/
theorem c9_usage_hints_differ :
    record_specific_date_h [] 1 "alice" ["bad-date"] none =
      HandlerResult.reply [] usageRecord ∧
    remove_date_h [] 1 ["bad-date"] none = HandlerResult.reply [] usageRemove ∧
    usageRecord ≠ usageRemove := by
  decide

/-- C9 (amended): on a parse error each handler replies with its own
fixed usage hint; the two hints share the format line "Please provide a
date in YYYY-MM-DD format" and the "Example: /" prefix, but differ in
the example command name, so they are unequal as strings. -/
theorem c9_usage_hints_share_format_line (st : Store) (uid : Int) (uname : String)
    (args : List String) (dbErr : Option String)
    (h : parseYYYYMMDD (joinArgs args) = none) :
    record_specific_date_h st uid uname args dbErr = HandlerResult.reply st usageRecord ∧
    remove_date_h st uid args dbErr = HandlerResult.reply st usageRemove ∧
    usageRecord =
      "Please provide a date in YYYY-MM-DD format\nExample: /" ++ "record 2024-11-27" ∧
    usageRemove =
      "Please provide a date in YYYY-MM-DD format\nExample: /" ++ "remove 2024-11-27" ∧
    usageRecord ≠ usageRemove := by
  refine ⟨?_, ?_, by decide, by decide, by decide⟩ <;>
    simp [record_specific_date_h, remove_date_h, h]

/-- C9 witness: the amended statement at a concrete malformed input. -/
theorem c9_usage_hints_share_format_line_witness :
    parseYYYYMMDD (joinArgs ["nope"]) = none ∧
    (record_specific_date_h [] 1 "alice" ["nope"] none =
        HandlerResult.reply [] usageRecord ∧
      remove_date_h [] 1 ["nope"] none = HandlerResult.reply [] usageRemove ∧
      usageRecord =
        "Please provide a date in YYYY-MM-DD format\nExample: /" ++ "record 2024-11-27" ∧
      usageRemove =
        "Please provide a date in YYYY-MM-DD format\nExample: /" ++ "remove 2024-11-27" ∧
      usageRecord ≠ usageRemove) :=
  ⟨by decide, c9_usage_hints_share_format_line [] 1 "alice" ["nope"] none (by decide)⟩

/-- C10: two distinct user ids recording under the same display name
are merged into one section by `check` (one combined count and date
list, since the report groups by username), yet `remove_date` issued by
one of them deletes only the row of that user and leaves the row of
the same-named other user intact (the DELETE keys on user_id). -/
theorem c10_check_merges_by_username_remove_by_user_id
    (u1 u2 : Int) (name : String) (d1 d2 : Date) (hne : u1 ≠ u2)
    (args : List String) (hp : parseYYYYMMDD (joinArgs args) = some d1) :
    (∃ rep, checkReport [⟨u1, name, d1⟩, ⟨u2, name, d2⟩] = some rep ∧
      ∃ g, rep.groups = [g] ∧ g.username = name ∧ g.total_classes = 2 ∧
        g.dates.Perm [d1, d2]) ∧
    remove_date_h [⟨u1, name, d1⟩, ⟨u2, name, d2⟩] u1 args none =
      HandlerResult.reply [⟨u2, name, d2⟩]
        ("Removed class record for " ++ formatDate d1) := by
  constructor
  · have hlen : (checkQuery [⟨u1, name, d1⟩, ⟨u2, name, d2⟩]).length = 1 := by
      rw [checkQuery_eq_statsRows, statsRows, List.length_map, statsBase,
        List.length_map]
      simp [dedupFirst, dedupFirstAux]
    have hh := checkQuery_head (⟨u1, name, d1⟩ : AttendanceRecord) [⟨u2, name, d2⟩]
    cases hq : checkQuery [⟨u1, name, d1⟩, ⟨u2, name, d2⟩] with
    | nil => rw [hq] at hlen; simp at hlen
    | cons g tl =>
        rw [hq] at hlen hh
        have htl : tl = [] := by
          simpa using hlen
        subst htl
        rw [List.head?_cons, Option.some_inj] at hh
        refine ⟨⟨g.total_classes, 100 - (g.total_classes : Int), [g]⟩,
          by simp only [checkReport, hq], g, rfl, ?_, ?_, ?_⟩
        · rw [hh]
        · rw [hh]
          simp
        · rw [hh]
          refine (List.perm_insertionSort dateLE _).trans ?_
          have hmap : ((((⟨u1, name, d1⟩ : AttendanceRecord) :: [⟨u2, name, d2⟩]).filter
              (fun r => r.username == (⟨u1, name, d1⟩ : AttendanceRecord).username)).map
              (fun r => r.class_date)) = [d1, d2] := by simp
          rw [hmap]
  · have h1 : removeMatch u1 d1 ⟨u1, name, d1⟩ = true := by
      simp [removeMatch]
    have h2 : removeMatch u1 d1 ⟨u2, name, d2⟩ = false := by
      simp [removeMatch, Ne.symm hne]
    simp [remove_date_h, hp, h1, h2]

/-- C10 witness: the merge-and-scoped-delete behaviour at concrete
ids 1 and 2 sharing the display name "x". -/
theorem c10_check_merges_by_username_remove_by_user_id_witness :
    (1 : Int) ≠ 2 ∧ parseYYYYMMDD (joinArgs ["2024-11-27"]) = some ⟨2024, 11, 27⟩ ∧
    ((∃ rep, checkReport [⟨1, "x", ⟨2024, 11, 27⟩⟩, ⟨2, "x", ⟨2024, 1, 2⟩⟩] = some rep ∧
        ∃ g, rep.groups = [g] ∧ g.username = "x" ∧ g.total_classes = 2 ∧
          g.dates.Perm [⟨2024, 11, 27⟩, ⟨2024, 1, 2⟩]) ∧
      remove_date_h [⟨1, "x", ⟨2024, 11, 27⟩⟩, ⟨2, "x", ⟨2024, 1, 2⟩⟩] 1
          ["2024-11-27"] none =
        HandlerResult.reply [⟨2, "x", ⟨2024, 1, 2⟩⟩]
          ("Removed class record for " ++ formatDate ⟨2024, 11, 27⟩)) :=
  ⟨by decide, by decide, c10_check_merges_by_username_remove_by_user_id 1 2 "x"
    ⟨2024, 11, 27⟩ ⟨2024, 1, 2⟩ (by decide) ["2024-11-27"] (by decide)⟩

example : parseYYYYMMDD "2024-11-27" = some ⟨2024, 11, 27⟩ := by decide
example : parseYYYYMMDD "2024-11" = none := by decide
example : parseYYYYMMDD "2024/11/27" = none := by decide
example : parseYYYYMMDD "" = none := by decide
example : parseYYYYMMDD "2024-02-30" = none := by decide
example : parseYYYYMMDD "2024-1-5" = some ⟨2024, 1, 5⟩ := by decide
example : joinArgs ["2024-11-27", "x"] = "2024-11-27 x" := by decide
example : formatDate ⟨2024, 1, 5⟩ = "2024-01-05" := by decide
